import Mathlib

/-!
Verification of the `zipsearch` index builder and lookup engine.

The builder (`build_fast_indices.py`) is embedded faithfully: Python strings
become `String`, SQLite floats become `ℚ` (every IEEE float is a rational, and
the builder only passes coordinates through and truncates `lat * 10` with
`int(...)`), Python `dict`s become insertion-ordered association lists with
Python's update-in-place / append-at-end semantics, and the per-row loop
becomes a left fold.

The lookup engine (`FastSearchEngine.py`) ships only signatures and
docstrings, so its two operations needed here (`by_coordinates`,
`_haversine_distance`) are modelled from the specification; their doc
comments say so.
-/

namespace ZipSearch

/-- Python `str.strip()` (ASCII/unicode whitespace model via `Char.isWhitespace`):
drop leading and trailing whitespace. -/
def pyStrip (s : String) : String :=
  ⟨((s.data.dropWhile Char.isWhitespace).reverse.dropWhile Char.isWhitespace).reverse⟩

/-- Helper for `pyTitle`: the Boolean records whether the previous character
was alphabetic (Python: cased). -/
def pyTitleAux : Bool → List Char → List Char
  | _, [] => []
  | prevAlpha, c :: t =>
    if c.isAlpha then
      (if prevAlpha then c.toLower else c.toUpper) :: pyTitleAux true t
    else
      c :: pyTitleAux false t

/-- Python `str.title()`: uppercase the first character of each maximal
alphabetic run, lowercase the rest (ASCII model). -/
def pyTitle (s : String) : String := ⟨pyTitleAux false s.data⟩

/-- Python `str.upper()` (ASCII model). -/
def pyUpper (s : String) : String := ⟨s.data.map Char.toUpper⟩

/-- Python `str.zfill(width)`: left-pad with `'0'` to `width` characters,
keeping a leading sign in front of the padding; a string already at least
`width` long is returned unchanged. -/
def pyZfill (s : String) (width : Nat) : String :=
  if width ≤ s.length then s
  else
    match s.data with
    | c :: t =>
      if c = '+' ∨ c = '-' then ⟨c :: (List.replicate (width - s.length) '0' ++ t)⟩
      else ⟨List.replicate (width - s.length) '0' ++ s.data⟩
    | [] => ⟨List.replicate width '0'⟩

/-- Python truthiness of an optional string: `None` and `""` are falsy. -/
def optTruthy : Option String → Bool
  | none => false
  | some s => !s.isEmpty

/-- Python `int()` applied to a rational: truncation toward zero
(`int(-1.5) == -1`). On a normalised `ℚ` this is T-division of the numerator
by the (positive) denominator. -/
def pyInt (q : ℚ) : Int := q.num.tdiv q.den

/-- One row of the `simple_zipcode` source table, in the 24-column order of
the builder's SELECT. Numeric SQLite columns are `Option` of `ℚ`/`Int`;
text and blob columns are `Option String`. -/
structure Row where
  zipcode : Option String
  zipcode_type : Option String
  major_city : Option String
  post_office_city : Option String
  common_city_list_blob : Option String
  county : Option String
  state : Option String
  lat : Option ℚ
  lng : Option ℚ
  timezone : Option String
  radius_in_miles : Option ℚ
  area_code_list_blob : Option String
  population : Option Int
  population_density : Option ℚ
  land_area_in_sqmi : Option ℚ
  water_area_in_sqmi : Option ℚ
  housing_units : Option Int
  occupied_housing_units : Option Int
  median_home_value : Option Int
  median_household_income : Option Int
  bounds_west : Option ℚ
  bounds_east : Option ℚ
  bounds_north : Option ℚ
  bounds_south : Option ℚ
  deriving DecidableEq, Repr

/-- The `FastZipcode` dataclass of `build_fast_indices.py` (all fields
optional except that the builder may leave `zipcode` `None` for a falsy raw
code). -/
structure FastZipcode where
  zipcode : Option String
  zipcode_type : Option String
  major_city : Option String
  post_office_city : Option String
  common_city_list : Option (List String)
  county : Option String
  state : Option String
  lat : Option ℚ
  lng : Option ℚ
  timezone : Option String
  radius_in_miles : Option ℚ
  area_code_list : Option (List String)
  population : Option Int
  population_density : Option ℚ
  land_area_in_sqmi : Option ℚ
  water_area_in_sqmi : Option ℚ
  housing_units : Option Int
  occupied_housing_units : Option Int
  median_home_value : Option Int
  median_household_income : Option Int
  bounds_west : Option ℚ
  bounds_east : Option ℚ
  bounds_north : Option ℚ
  bounds_south : Option ℚ
  deriving DecidableEq, Repr

/-- The `FastZipcode(...)` construction in the builder's row loop:
`zipcode.zfill(5) if zipcode else None`, `major_city.strip().title() if
major_city else None`, `state.strip().upper() if state else None`, blobs
decoded by the external decoder `dec`, everything else passed through.
`dec` is the `_decode_blob` collaborator from `zipsearch.utils`, which is
not part of this repository's sources; the builder is parameterised by it. -/
def mkFastZipcode (dec : Option String → Option (List String)) (row : Row) : FastZipcode where
  zipcode :=
    match row.zipcode with
    | none => none
    | some s => if s.isEmpty then none else some (pyZfill s 5)
  zipcode_type := row.zipcode_type
  major_city :=
    match row.major_city with
    | none => none
    | some s => if s.isEmpty then none else some (pyTitle (pyStrip s))
  post_office_city :=
    match row.post_office_city with
    | none => none
    | some s => if s.isEmpty then none else some (pyTitle (pyStrip s))
  common_city_list := dec row.common_city_list_blob
  county := row.county
  state :=
    match row.state with
    | none => none
    | some s => if s.isEmpty then none else some (pyUpper (pyStrip s))
  lat := row.lat
  lng := row.lng
  timezone := row.timezone
  radius_in_miles := row.radius_in_miles
  area_code_list := dec row.area_code_list_blob
  population := row.population
  population_density := row.population_density
  land_area_in_sqmi := row.land_area_in_sqmi
  water_area_in_sqmi := row.water_area_in_sqmi
  housing_units := row.housing_units
  occupied_housing_units := row.occupied_housing_units
  median_home_value := row.median_home_value
  median_household_income := row.median_household_income
  bounds_west := row.bounds_west
  bounds_east := row.bounds_east
  bounds_north := row.bounds_north
  bounds_south := row.bounds_south

/-- A Python `dict` as an insertion-ordered association list.
`dictInsert` models `d[k] = v`: update in place if the key exists,
otherwise append at the end. -/
def dictInsert {α β : Type} [DecidableEq α] (k : α) (v : β) : List (α × β) → List (α × β)
  | [] => [(k, v)]
  | (k', v') :: t => if k' = k then (k, v) :: t else (k', v') :: dictInsert k v t

/-- `dictLookup k d` models `d.get(k)`. -/
def dictLookup {α β : Type} [DecidableEq α] (k : α) : List (α × β) → Option β
  | [] => none
  | (k', v') :: t => if k' = k then some v' else dictLookup k t

/-- Models the builder's `if key not in d: d[key] = []` followed by
`d[key].append(v)`. -/
def dictAppend {α β : Type} [DecidableEq α] (k : α) (v : β) :
    List (α × List β) → List (α × List β)
  | [] => [(k, [v])]
  | (k', l) :: t => if k' = k then (k', l ++ [v]) :: t else (k', l) :: dictAppend k v t

/-- The three in-memory indices being built. -/
structure Indices where
  zipcode_index : List (String × FastZipcode)
  city_state_index : List ((String × String) × List FastZipcode)
  coordinate_grid : List ((Int × Int) × List FastZipcode)
  deriving DecidableEq, Repr

/-- The body of the builder's `for row in cursor.fetchall()` loop: build the
normalised record, then perform the three conditional insertions. -/
def processRow (dec : Option String → Option (List String)) (idx : Indices) (row : Row) :
    Indices :=
  let z := mkFastZipcode dec row
  { zipcode_index :=
      if optTruthy z.zipcode then dictInsert (z.zipcode.getD "") z idx.zipcode_index
      else idx.zipcode_index
    city_state_index :=
      if optTruthy z.major_city && optTruthy z.state then
        dictAppend (z.major_city.getD "", z.state.getD "") z idx.city_state_index
      else idx.city_state_index
    coordinate_grid :=
      match z.lat, z.lng with
      | some la, some ln =>
        dictAppend (pyInt (la * 10), pyInt (ln * 10)) z idx.coordinate_grid
      | _, _ => idx.coordinate_grid }

/-- `build_fast_indices`: one sequential pass over the source rows starting
from three empty indices. -/
def build_fast_indices (dec : Option String → Option (List String)) (rows : List Row) :
    Indices :=
  rows.foldl (processRow dec) ⟨[], [], []⟩

/-- One named section of the serialized container (`all_indices` in the
builder): the three sections carry values of different shapes. -/
inductive Section
  | zipIdx : List (String × FastZipcode) → Section
  | cityIdx : List ((String × String) × List FastZipcode) → Section
  | gridIdx : List ((Int × Int) × List FastZipcode) → Section
  deriving DecidableEq

/-- The whole `build_fast_indices` entry point: an absent/unreadable source
(`none`) raises `FileNotFoundError` before any output exists; otherwise the
three indices are built and the `all_indices` container — the three named
sections, written by the single `pickle.dump` call — is produced whole. -/
def build_fast_indices_main (dec : Option String → Option (List String))
    (source : Option (List Row)) : Except String (List (String × Section)) :=
  match source with
  | none => Except.error "simple_db.sqlite not found"
  | some rows =>
    let idx := build_fast_indices dec rows
    Except.ok
      [("zipcode_index", Section.zipIdx idx.zipcode_index),
       ("city_state_index", Section.cityIdx idx.city_state_index),
       ("coordinate_grid", Section.gridIdx idx.coordinate_grid)]

/-- Modelled from the spec: `FastSearchEngine._haversine_distance` has no
body in the sources (docstring only). The spec prescribes the standard
Haversine great-circle formula with mean Earth radius 3958.8 miles, degrees
converted to radians. Coordinates are real numbers. -/
noncomputable def haversine_distance (lat1 lng1 lat2 lng2 : ℝ) : ℝ :=
  2 * 3958.8 * Real.arcsin (Real.sqrt
    (Real.sin ((lat2 - lat1) * Real.pi / 180 / 2) ^ 2 +
      Real.cos (lat1 * Real.pi / 180) * Real.cos (lat2 * Real.pi / 180) *
        Real.sin ((lng2 - lng1) * Real.pi / 180 / 2) ^ 2))

/-- Distance from a query point to a record's stored coordinates, for a
given distance function `dist` (records produced by the builder's grid
always carry both coordinates; absent ones default to 0). -/
def recDist (dist : ℚ → ℚ → ℚ → ℚ → ℚ) (lat lng : ℚ) (z : FastZipcode) : ℚ :=
  dist lat lng (z.lat.getD 0) (z.lng.getD 0)

/-- Modelled from the spec: the radius-search bucket window half-width, in
buckets — `ceil(radiusMiles / bucket-width-in-miles) + 1` with the ~0.1°
bucket ≈ 6.9 miles. -/
def gridWindow (radius : ℚ) : Nat := (⌈radius / (69 / 10 : ℚ)⌉).toNat + 1

/-- The bucket keys of the `(2w+1) × (2w+1)` window centred on the home
bucket. -/
def windowKeys (latB lngB : Int) (w : Nat) : List (Int × Int) :=
  (List.range (2 * w + 1)).flatMap (fun i =>
    (List.range (2 * w + 1)).map (fun j =>
      (latB - (w : Int) + (i : Int), lngB - (w : Int) + (j : Int))))

/-- All records found in the scanned window of grid buckets (the radius
search's candidate set). -/
def candidateRecords (grid : List ((Int × Int) × List FastZipcode))
    (latB lngB : Int) (w : Nat) : List FastZipcode :=
  (windowKeys latB lngB w).flatMap (fun k => (dictLookup k grid).getD [])

/-- The sort key comparison for radius-search results: ascending by distance
from the query point, ties broken by zipcode string ascending. -/
def coordKeyLe (dist : ℚ → ℚ → ℚ → ℚ → ℚ) (lat lng : ℚ) (a b : FastZipcode) : Bool :=
  decide (recDist dist lat lng a < recDist dist lat lng b) ||
    (decide (recDist dist lat lng a = recDist dist lat lng b) &&
      decide (a.zipcode.getD "" ≤ b.zipcode.getD ""))

/-- Modelled from the spec: `FastSearchEngine.by_coordinates` has no body in
the sources (docstring only). Per the spec: compute the home bucket, scan a
window of adjacent buckets wide enough for the radius, keep the candidates
whose distance from the query point is at most the radius, and sort them
ascending by distance with ties broken by zipcode. The great-circle
distance function is a parameter `dist` (its real-valued Haversine form is
not computable over ℚ). -/
def by_coordinates (dist : ℚ → ℚ → ℚ → ℚ → ℚ)
    (grid : List ((Int × Int) × List FastZipcode)) (lat lng radius : ℚ) :
    List FastZipcode :=
  let cands := candidateRecords grid (pyInt (lat * 10)) (pyInt (lng * 10)) (gridWindow radius)
  (cands.filter (fun z => decide (recDist dist lat lng z ≤ radius))).mergeSort
    (coordKeyLe dist lat lng)

/-! ### Characterisation machinery for the three per-row insertions -/

/-- The last element of a list, recursively (used to state last-write-wins). -/
def lastOf {α : Type} : List α → Option α
  | [] => none
  | a :: t => match lastOf t with
    | some v => some v
    | none => some a

/-- Key/record selector for the zipcode-index insertion of a row: `some`
exactly when the builder inserts. -/
def zipSel (dec : Option String → Option (List String)) (row : Row) :
    Option (String × FastZipcode) :=
  let z := mkFastZipcode dec row
  if optTruthy z.zipcode then some (z.zipcode.getD "", z) else none

/-- Key/record selector for the city/state-index insertion of a row. -/
def citySel (dec : Option String → Option (List String)) (row : Row) :
    Option ((String × String) × FastZipcode) :=
  let z := mkFastZipcode dec row
  if optTruthy z.major_city && optTruthy z.state then
    some ((z.major_city.getD "", z.state.getD ""), z)
  else none

/-- Key/record selector for the coordinate-grid insertion of a row. -/
def gridSel (dec : Option String → Option (List String)) (row : Row) :
    Option ((Int × Int) × FastZipcode) :=
  let z := mkFastZipcode dec row
  match z.lat, z.lng with
  | some la, some ln => some ((pyInt (la * 10), pyInt (ln * 10)), z)
  | _, _ => none

/-- Generic step for a dict updated by `d[k] = v` under a selector. -/
def stepInsert {K : Type} [DecidableEq K] (g : Row → Option (K × FastZipcode))
    (d : List (K × FastZipcode)) (row : Row) : List (K × FastZipcode) :=
  match g row with
  | some (k, v) => dictInsert k v d
  | none => d

/-- Generic step for a dict updated by `d.setdefault(k, []).append(v)` under
a selector. -/
def stepAppend {K : Type} [DecidableEq K] (g : Row → Option (K × FastZipcode))
    (d : List (K × List FastZipcode)) (row : Row) : List (K × List FastZipcode) :=
  match g row with
  | some (k, v) => dictAppend k v d
  | none => d

/-- The records the selector sends to key `k`, in source row order. -/
def matchesOf {K : Type} [DecidableEq K] (g : Row → Option (K × FastZipcode))
    (rows : List Row) (k : K) : List FastZipcode :=
  rows.filterMap (fun row =>
    match g row with
    | some (k', v) => if k' = k then some v else none
    | none => none)

/-! ### Concrete inputs for counterexamples and witnesses -/

/-- A trivial blob decoder (the decoder is external to the repository; the
claims hold for every decoder, and witnesses use this one). -/
def dec0 : Option String → Option (List String) := fun _ => none

/-- A source row with every column NULL. -/
def rowBase : Row :=
  ⟨none, none, none, none, none, none, none, none, none, none, none, none,
   none, none, none, none, none, none, none, none, none, none, none, none⟩

/-- A row with negative coordinates lat = lng = -0.15, whose `lat * 10`
is -1.5: truncation gives bucket -1, floor gives -2. -/
def rNeg : Row :=
  { rowBase with zipcode := some "1", lat := some (-(3/20)), lng := some (-(3/20)) }

/-- A row with a NULL zipcode but city, state and coordinates present. -/
def rNoCode : Row :=
  { rowBase with major_city := some "springfield", state := some "il",
                 lat := some 4, lng := some 5 }

/-- A row whose raw zipcode is longer than 5 characters. -/
def rLong : Row :=
  { rowBase with zipcode := some "123456" }

/-- A full row: raw code `"1"`, city/state and coordinates present. -/
def rA : Row :=
  { rowBase with zipcode := some "1", major_city := some "austin",
                 state := some "tx", lat := some (303/10), lng := some (-(977/10)) }

/-- A second row whose raw code `"00001"` zero-pads to the same key as
`rA`'s. -/
def rB : Row :=
  { rowBase with zipcode := some "00001" }

theorem mem_matchesOf {K : Type} [DecidableEq K] {g : Row → Option (K × FastZipcode)}
    {rows : List Row} {k : K} {z : FastZipcode} :
    z ∈ matchesOf g rows k ↔ ∃ row ∈ rows, g row = some (k, z) := by
  unfold matchesOf
  rw [List.mem_filterMap]
  constructor
  · rintro ⟨row, hrow, hz⟩
    refine ⟨row, hrow, ?_⟩
    cases h : g row with
    | none => rw [h] at hz; exact absurd hz (by simp)
    | some kv =>
      obtain ⟨k', v⟩ := kv
      rw [h] at hz
      by_cases hk : k' = k
      · subst hk
        simp only [if_pos rfl, if_true, Option.some.injEq] at hz
        rw [hz]
      · simp [hk] at hz
  · rintro ⟨row, hrow, hz⟩
    exact ⟨row, hrow, by rw [hz]; simp⟩

theorem lastOf_mem {α : Type} {l : List α} {v : α} (h : lastOf l = some v) : v ∈ l := by
  induction l with
  | nil => exact absurd h (by simp [lastOf])
  | cons a t ih =>
    unfold lastOf at h
    cases ht : lastOf t with
    | some w =>
      rw [ht] at h
      exact List.mem_cons_of_mem a (ih (ht.trans h))
    | none =>
      rw [ht] at h
      simp only [Option.some.injEq] at h
      exact h ▸ List.mem_cons_self a t

theorem dictLookup_dictInsert {α β : Type} [DecidableEq α] (k k' : α) (v : β)
    (d : List (α × β)) :
    dictLookup k (dictInsert k' v d) =
      if k' = k then some v else dictLookup k d := by
  induction d with
  | nil => by_cases h : k' = k <;> simp [dictInsert, dictLookup, h]
  | cons hd t ih =>
    obtain ⟨k'', v''⟩ := hd
    by_cases h1 : k'' = k'
    · by_cases h2 : k' = k <;> simp [dictInsert, dictLookup, h1, h2]
    · by_cases h2 : k' = k
      · subst h2
        simp [dictInsert, dictLookup, h1, ih]
      · have h2' : ¬k = k' := fun h => h2 h.symm
        by_cases h3 : k'' = k <;>
          simp [dictInsert, dictLookup, h1, h2, h2', h3, ih]

theorem dictLookup_dictAppend {α β : Type} [DecidableEq α] (k k' : α) (v : β)
    (d : List (α × List β)) :
    dictLookup k (dictAppend k' v d) =
      if k' = k then some ((dictLookup k d).getD [] ++ [v])
      else dictLookup k d := by
  induction d with
  | nil => by_cases h : k' = k <;> simp [dictAppend, dictLookup, h]
  | cons hd t ih =>
    obtain ⟨k'', l⟩ := hd
    by_cases h1 : k'' = k'
    · by_cases h2 : k' = k <;> simp [dictAppend, dictLookup, h1, h2]
    · by_cases h2 : k' = k
      · subst h2
        simp [dictAppend, dictLookup, h1, ih]
      · have h2' : ¬k = k' := fun h => h2 h.symm
        by_cases h3 : k'' = k <;>
          simp [dictAppend, dictLookup, h1, h2, h2', h3, ih]

theorem foldl_stepInsert_lookup {K : Type} [DecidableEq K]
    (g : Row → Option (K × FastZipcode)) (k : K) :
    ∀ (rows : List Row) (d : List (K × FastZipcode)),
      dictLookup k (rows.foldl (stepInsert g) d) =
        match lastOf (matchesOf g rows k) with
        | some v => some v
        | none => dictLookup k d := by
  intro rows
  induction rows with
  | nil => intro d; simp [matchesOf, lastOf]
  | cons row rows ih =>
    intro d
    rw [List.foldl_cons, ih]
    have hm : matchesOf g (row :: rows) k =
        (match g row with
          | some (k', v) => if k' = k then some v else none
          | none => none).toList ++ matchesOf g rows k := by
      unfold matchesOf
      rw [List.filterMap_cons]
      cases h : g row with
      | none => simp
      | some kv =>
        obtain ⟨k', v⟩ := kv
        by_cases hk : k' = k <;> simp [hk]
    cases h : g row with
    | none =>
      rw [hm, h]
      simp [stepInsert, h]
    | some kv =>
      obtain ⟨k', v⟩ := kv
      by_cases hk : k' = k
      · subst hk
        rw [hm, h]
        simp only [if_pos rfl, Option.toList_some, List.singleton_append]
        rw [stepInsert, h]
        cases hrest : lastOf (matchesOf g rows k')
        · simp [lastOf, hrest, dictLookup_dictInsert]
        · simp [lastOf, hrest]
      · rw [hm, h]
        simp only [if_neg hk, Option.toList_none, List.nil_append]
        rw [stepInsert, h]
        cases hrest : lastOf (matchesOf g rows k)
        · simp [hrest, dictLookup_dictInsert, hk]
        · simp [hrest]

theorem foldl_stepAppend_lookup {K : Type} [DecidableEq K]
    (g : Row → Option (K × FastZipcode)) (k : K) :
    ∀ (rows : List Row) (d : List (K × List FastZipcode)),
      dictLookup k (rows.foldl (stepAppend g) d) =
        match dictLookup k d with
        | some l => some (l ++ matchesOf g rows k)
        | none =>
          if matchesOf g rows k = [] then none else some (matchesOf g rows k) := by
  intro rows
  induction rows with
  | nil =>
    intro d
    cases h : dictLookup k d <;> simp [matchesOf, h]
  | cons row rows ih =>
    intro d
    rw [List.foldl_cons, ih]
    have hm : matchesOf g (row :: rows) k =
        (match g row with
          | some (k', v) => if k' = k then some v else none
          | none => none).toList ++ matchesOf g rows k := by
      unfold matchesOf
      rw [List.filterMap_cons]
      cases h : g row with
      | none => simp
      | some kv =>
        obtain ⟨k', v⟩ := kv
        by_cases hk : k' = k <;> simp [hk]
    cases h : g row with
    | none =>
      rw [hm, h]
      simp [stepAppend, h]
    | some kv =>
      obtain ⟨k', v⟩ := kv
      by_cases hk : k' = k
      · subst hk
        rw [hm, h]
        simp only [if_pos rfl, Option.toList_some, List.singleton_append]
        rw [stepAppend, h]
        rw [dictLookup_dictAppend, if_pos rfl]
        cases hd : dictLookup k' d <;> simp [hd]
      · rw [hm, h]
        simp only [if_neg hk, Option.toList_none, List.nil_append]
        rw [stepAppend, h]
        rw [dictLookup_dictAppend, if_neg hk]

theorem processRow_zipcode_index (dec : Option String → Option (List String))
    (idx : Indices) (row : Row) :
    (processRow dec idx row).zipcode_index = stepInsert (zipSel dec) idx.zipcode_index row := by
  unfold processRow stepInsert zipSel
  by_cases h : optTruthy (mkFastZipcode dec row).zipcode <;> simp [h]

theorem processRow_city_state_index (dec : Option String → Option (List String))
    (idx : Indices) (row : Row) :
    (processRow dec idx row).city_state_index =
      stepAppend (citySel dec) idx.city_state_index row := by
  unfold processRow stepAppend citySel
  by_cases h : (optTruthy (mkFastZipcode dec row).major_city &&
      optTruthy (mkFastZipcode dec row).state) = true <;> simp [h]

theorem processRow_coordinate_grid (dec : Option String → Option (List String))
    (idx : Indices) (row : Row) :
    (processRow dec idx row).coordinate_grid =
      stepAppend (gridSel dec) idx.coordinate_grid row := by
  unfold processRow stepAppend gridSel
  cases hla : (mkFastZipcode dec row).lat <;> cases hln : (mkFastZipcode dec row).lng <;>
    simp [hla, hln]

theorem build_zipcode_index (dec : Option String → Option (List String)) :
    ∀ (rows : List Row) (idx : Indices),
      (rows.foldl (processRow dec) idx).zipcode_index =
        rows.foldl (stepInsert (zipSel dec)) idx.zipcode_index := by
  intro rows
  induction rows with
  | nil => intro idx; rfl
  | cons row rows ih =>
    intro idx
    rw [List.foldl_cons, List.foldl_cons, ih, processRow_zipcode_index]

theorem build_city_state_index (dec : Option String → Option (List String)) :
    ∀ (rows : List Row) (idx : Indices),
      (rows.foldl (processRow dec) idx).city_state_index =
        rows.foldl (stepAppend (citySel dec)) idx.city_state_index := by
  intro rows
  induction rows with
  | nil => intro idx; rfl
  | cons row rows ih =>
    intro idx
    rw [List.foldl_cons, List.foldl_cons, ih, processRow_city_state_index]

theorem build_coordinate_grid (dec : Option String → Option (List String)) :
    ∀ (rows : List Row) (idx : Indices),
      (rows.foldl (processRow dec) idx).coordinate_grid =
        rows.foldl (stepAppend (gridSel dec)) idx.coordinate_grid := by
  intro rows
  induction rows with
  | nil => intro idx; rfl
  | cons row rows ih =>
    intro idx
    rw [List.foldl_cons, List.foldl_cons, ih, processRow_coordinate_grid]

/-- The zipcode index after a build: at every key, the stored record is the
one contributed by the last source row that maps to that key. -/
theorem zipcode_index_char (dec : Option String → Option (List String))
    (rows : List Row) (k : String) :
    dictLookup k (build_fast_indices dec rows).zipcode_index =
      lastOf (matchesOf (zipSel dec) rows k) := by
  unfold build_fast_indices
  rw [build_zipcode_index, foldl_stepInsert_lookup]
  cases lastOf (matchesOf (zipSel dec) rows k) <;> rfl

/-- The city/state index after a build: at every key, the stored list is
exactly the source-ordered list of records whose normalised city and state
are both present and form that key; a key with no such rows is absent. -/
theorem city_state_index_char (dec : Option String → Option (List String))
    (rows : List Row) (key : String × String) :
    dictLookup key (build_fast_indices dec rows).city_state_index =
      if matchesOf (citySel dec) rows key = [] then none
      else some (matchesOf (citySel dec) rows key) := by
  unfold build_fast_indices
  rw [build_city_state_index, foldl_stepAppend_lookup]
  rfl

/-- The coordinate grid after a build: at every bucket key, the stored list
is exactly the source-ordered list of records with both coordinates whose
truncated bucket pair is that key; an untouched bucket is absent. -/
theorem coordinate_grid_char (dec : Option String → Option (List String))
    (rows : List Row) (key : Int × Int) :
    dictLookup key (build_fast_indices dec rows).coordinate_grid =
      if matchesOf (gridSel dec) rows key = [] then none
      else some (matchesOf (gridSel dec) rows key) := by
  unfold build_fast_indices
  rw [build_coordinate_grid, foldl_stepAppend_lookup]
  rfl

/-- A record selected for the city/state index ends up a member of the built
index's list at its key. -/
theorem mem_city_state_of_citySel (dec : Option String → Option (List String))
    {rows : List Row} {row : Row} (hrow : row ∈ rows) {k : String × String}
    {z : FastZipcode} (h : citySel dec row = some (k, z)) :
    z ∈ (dictLookup k (build_fast_indices dec rows).city_state_index).getD [] := by
  have hmem : z ∈ matchesOf (citySel dec) rows k := mem_matchesOf.mpr ⟨row, hrow, h⟩
  rw [city_state_index_char, if_neg (List.ne_nil_of_mem hmem)]
  exact hmem

/-- A record selected for the coordinate grid ends up a member of the built
grid's list at its bucket. -/
theorem mem_grid_of_gridSel (dec : Option String → Option (List String))
    {rows : List Row} {row : Row} (hrow : row ∈ rows) {k : Int × Int}
    {z : FastZipcode} (h : gridSel dec row = some (k, z)) :
    z ∈ (dictLookup k (build_fast_indices dec rows).coordinate_grid).getD [] := by
  have hmem : z ∈ matchesOf (gridSel dec) rows k := mem_matchesOf.mpr ⟨row, hrow, h⟩
  rw [coordinate_grid_char, if_neg (List.ne_nil_of_mem hmem)]
  exact hmem

/-- Every record stored in the zipcode index came from a source row on which
the zipcode selector fired. -/
theorem lookup_zipcode_index_inv {dec : Option String → Option (List String)}
    {rows : List Row} {k : String} {z : FastZipcode}
    (h : dictLookup k (build_fast_indices dec rows).zipcode_index = some z) :
    ∃ row ∈ rows, zipSel dec row = some (k, z) := by
  rw [zipcode_index_char] at h
  exact mem_matchesOf.mp (lastOf_mem h)

/-! ### Small facts about the normalisation helpers -/

theorem pyInt_eq_floor_of_nonneg {q : ℚ} (h : 0 ≤ q) : pyInt q = ⌊q⌋ := by
  rw [Rat.floor_def, pyInt]
  exact Int.tdiv_eq_ediv (Rat.num_nonneg.mpr h)
    (by exact_mod_cast Nat.zero_le q.den)

theorem optTruthy_some {o : Option String} (h : optTruthy o = true) :
    o = some (o.getD "") := by
  cases o with
  | none => simp [optTruthy] at h
  | some s => rfl

theorem zipSel_inv {dec : Option String → Option (List String)} {row : Row}
    {k : String} {z : FastZipcode} (h : zipSel dec row = some (k, z)) :
    z = mkFastZipcode dec row ∧ optTruthy z.zipcode = true ∧ z.zipcode = some k := by
  unfold zipSel at h
  by_cases ht : optTruthy (mkFastZipcode dec row).zipcode
  · rw [if_pos ht] at h
    simp only [Option.some.injEq, Prod.mk.injEq] at h
    obtain ⟨hk, hz⟩ := h
    subst hz
    exact ⟨rfl, ht, by rw [optTruthy_some ht, hk]⟩
  · rw [if_neg ht] at h
    exact absurd h (by simp)

theorem zipSel_raw {dec : Option String → Option (List String)} {row : Row}
    {k : String} {z : FastZipcode} (h : zipSel dec row = some (k, z)) :
    ∃ s : String, row.zipcode = some s ∧ s ≠ "" ∧ k = pyZfill s 5 := by
  obtain ⟨hz, ht, hk⟩ := zipSel_inv h
  subst hz
  cases hraw : row.zipcode with
  | none =>
    exfalso
    have : (mkFastZipcode dec row).zipcode = none := by
      simp [mkFastZipcode, hraw]
    rw [this] at ht
    simp [optTruthy] at ht
  | some s =>
    by_cases hs : s.isEmpty
    · exfalso
      have : (mkFastZipcode dec row).zipcode = none := by
        simp [mkFastZipcode, hraw, hs]
      rw [this] at ht
      simp [optTruthy] at ht
    · refine ⟨s, rfl, fun he => hs (he ▸ rfl), ?_⟩
      have : (mkFastZipcode dec row).zipcode = some (pyZfill s 5) := by
        simp [mkFastZipcode, hraw, hs]
      rw [this] at hk
      exact (Option.some.injEq _ _ ▸ hk).symm

theorem pyZfill_length_digits {s : String} (hne : s ≠ "") (hlen : s.length ≤ 5)
    (hdig : s.data.all Char.isDigit = true) :
    (pyZfill s 5).length = 5 ∧ (pyZfill s 5).data.all Char.isDigit = true := by
  unfold pyZfill
  by_cases h5 : 5 ≤ s.length
  · rw [if_pos h5]
    exact ⟨Nat.le_antisymm hlen h5, hdig⟩
  · rw [if_neg h5]
    have hdata : s.data ≠ [] := fun hd => hne (by
      cases s; simp at hd; rw [hd])
    cases hd : s.data with
    | nil => exact absurd hd hdata
    | cons c t =>
      have hcdig : c.isDigit = true := by
        rw [hd, List.all_cons, Bool.and_eq_true] at hdig
        exact hdig.1
      have hsign : ¬(c = '+' ∨ c = '-') := by
        rintro (hc | hc) <;> rw [hc] at hcdig <;> exact absurd hcdig (by decide)
      dsimp only
      rw [if_neg hsign, ← hd]
      constructor
      · show (List.replicate (5 - s.length) '0' ++ s.data).length = 5
        rw [List.length_append, List.length_replicate]
        have : s.data.length = s.length := rfl
        omega
      · show (List.replicate (5 - s.length) '0' ++ s.data).all Char.isDigit = true
        rw [List.all_append, Bool.and_eq_true]
        refine ⟨?_, hdig⟩
        rw [List.all_eq_true]
        intro c hc
        rw [List.eq_of_mem_replicate hc]
        decide

theorem citySel_eq {dec : Option String → Option (List String)} {row : Row}
    (h : (optTruthy (mkFastZipcode dec row).major_city &&
      optTruthy (mkFastZipcode dec row).state) = true) :
    citySel dec row =
      some (((mkFastZipcode dec row).major_city.getD "",
        (mkFastZipcode dec row).state.getD ""), mkFastZipcode dec row) := by
  unfold citySel
  rw [if_pos h]

theorem gridSel_eq {dec : Option String → Option (List String)} {row : Row}
    {la ln : ℚ} (hla : row.lat = some la) (hln : row.lng = some ln) :
    gridSel dec row =
      some ((pyInt (la * 10), pyInt (ln * 10)), mkFastZipcode dec row) := by
  unfold gridSel
  dsimp only
  rw [show (mkFastZipcode dec row).lat = some la from hla,
      show (mkFastZipcode dec row).lng = some ln from hln]

/-! ### Claim theorems -/

/-- C5: the haversine distance (modelled from the spec: standard formula,
mean Earth radius 3958.8 miles) is a pure function of its four coordinate
arguments, symmetric in its two points, and zero on identical points. -/
theorem haversine_distance_symm_and_zero :
    (∀ lat1 lng1 lat2 lng2 : ℝ,
      haversine_distance lat1 lng1 lat2 lng2 = haversine_distance lat2 lng2 lat1 lng1) ∧
    (∀ lat lng : ℝ, haversine_distance lat lng lat lng = 0) := by
  constructor
  · intro lat1 lng1 lat2 lng2
    unfold haversine_distance
    have key : ∀ x y : ℝ, Real.sin ((x - y) * Real.pi / 180 / 2) ^ 2
        = Real.sin ((y - x) * Real.pi / 180 / 2) ^ 2 := by
      intro x y
      rw [show (x - y) * Real.pi / 180 / 2 = -((y - x) * Real.pi / 180 / 2) by ring,
        Real.sin_neg]
      ring
    rw [key lat2 lat1, key lng2 lng1,
      mul_comm (Real.cos (lat1 * Real.pi / 180)) (Real.cos (lat2 * Real.pi / 180))]
  · intro lat lng
    unfold haversine_distance
    simp

/-- C6: at every key of the built zipcode index the stored record is the one
contributed by the last source row mapping to that key — duplicate codes
overwrite silently (last-write-wins), and the build is a total function, so
no error is raised. -/
theorem zipcode_index_last_write_wins (dec : Option String → Option (List String))
    (rows : List Row) (k : String) :
    dictLookup k (build_fast_indices dec rows).zipcode_index =
      lastOf (matchesOf (zipSel dec) rows k) :=
  zipcode_index_char dec rows k

/-- C7: a row's record is in the built city/state index exactly when its
normalised major city and state are both present (the `citySel` condition),
and the list stored at each key is exactly the source-ordered list of such
records — appended, never replaced. -/
theorem city_state_index_members (dec : Option String → Option (List String))
    (rows : List Row) (key : String × String) :
    (dictLookup key (build_fast_indices dec rows).city_state_index =
      if matchesOf (citySel dec) rows key = [] then none
      else some (matchesOf (citySel dec) rows key)) ∧
    (∀ z : FastZipcode,
      z ∈ (dictLookup key (build_fast_indices dec rows).city_state_index).getD [] ↔
        ∃ row ∈ rows, citySel dec row = some (key, z)) := by
  have hchar := city_state_index_char dec rows key
  refine ⟨hchar, fun z => ?_⟩
  rw [← mem_matchesOf, hchar]
  by_cases hm : matchesOf (citySel dec) rows key = []
  · rw [if_pos hm, hm]
    exact Iff.rfl
  · rw [if_neg hm]
    exact Iff.rfl

/-- C8: the builder is deterministic — it is a pure function of the decoder
and the source row sequence, so two builds over the identical input produce
identical indices and an identical container. -/
theorem builder_deterministic (dec : Option String → Option (List String))
    (rows : List Row) :
    build_fast_indices dec rows = build_fast_indices dec rows ∧
    build_fast_indices_main dec (some rows) = build_fast_indices_main dec (some rows) :=
  ⟨rfl, rfl⟩

/-- C9: an absent/unreadable source makes the builder abort with an error
and produce no container, and a produced container holds exactly the three
named sections `zipcode_index`, `city_state_index`, `coordinate_grid`. -/
theorem builder_fatal_on_missing_source_and_whole_container
    (dec : Option String → Option (List String)) :
    build_fast_indices_main dec none = Except.error "simple_db.sqlite not found" ∧
    ∀ rows : List Row,
      (build_fast_indices_main dec (some rows)).map (fun c => c.map Prod.fst) =
        Except.ok ["zipcode_index", "city_state_index", "coordinate_grid"] :=
  ⟨rfl, fun _ => rfl⟩

/-- C4: for every distance function, grid, query point and radius,
`by_coordinates` returns exactly the candidate records (those in the scanned
bucket window) whose distance from the query point is at most the radius —
as a permutation of the filtered candidate list — every returned record is
within the radius, and the result is sorted ascending by distance with ties
broken by zipcode ascending. -/
theorem by_coordinates_exact_and_sorted (dist : ℚ → ℚ → ℚ → ℚ → ℚ)
    (grid : List ((Int × Int) × List FastZipcode)) (lat lng radius : ℚ) :
    ((by_coordinates dist grid lat lng radius).Perm
      ((candidateRecords grid (pyInt (lat * 10)) (pyInt (lng * 10))
          (gridWindow radius)).filter
        (fun z => decide (recDist dist lat lng z ≤ radius)))) ∧
    (∀ z ∈ by_coordinates dist grid lat lng radius,
      recDist dist lat lng z ≤ radius) ∧
    ((by_coordinates dist grid lat lng radius).Pairwise (fun a b =>
      recDist dist lat lng a < recDist dist lat lng b ∨
        (recDist dist lat lng a = recDist dist lat lng b ∧
          a.zipcode.getD "" ≤ b.zipcode.getD ""))) := by
  unfold by_coordinates
  refine ⟨List.mergeSort_perm _ _, ?_, ?_⟩
  · intro z hz
    rw [List.mem_mergeSort, List.mem_filter] at hz
    exact of_decide_eq_true hz.2
  · have trans : ∀ a b c : FastZipcode, coordKeyLe dist lat lng a b →
        coordKeyLe dist lat lng b c → coordKeyLe dist lat lng a c := by
      intro a b c hab hbc
      simp only [coordKeyLe, Bool.or_eq_true, Bool.and_eq_true,
        decide_eq_true_eq] at hab hbc ⊢
      rcases hab with h1 | ⟨h1, h2⟩ <;> rcases hbc with h3 | ⟨h3, h4⟩
      · exact Or.inl (h1.trans h3)
      · exact Or.inl (h3 ▸ h1)
      · exact Or.inl (h1 ▸ h3)
      · exact Or.inr ⟨h1.trans h3, h2.trans h4⟩
    have total : ∀ a b : FastZipcode,
        coordKeyLe dist lat lng a b || coordKeyLe dist lat lng b a := by
      intro a b
      simp only [coordKeyLe, Bool.or_eq_true, Bool.and_eq_true,
        decide_eq_true_eq]
      rcases lt_trichotomy (recDist dist lat lng a) (recDist dist lat lng b) with h | h | h
      · exact Or.inl (Or.inl h)
      · rcases le_total (a.zipcode.getD "") (b.zipcode.getD "") with hle | hle
        · exact Or.inl (Or.inr ⟨h, hle⟩)
        · exact Or.inr (Or.inr ⟨h.symm, hle⟩)
      · exact Or.inr (Or.inl h)
    refine List.Pairwise.imp ?_ (List.sorted_mergeSort trans total _)
    intro a b h
    simp only [coordKeyLe, Bool.or_eq_true, Bool.and_eq_true,
      decide_eq_true_eq] at h
    exact h

/-- C1 (counterexample): for the row with lat = lng = -0.15 the builder
stores the record under bucket (-1, -1) — the truncation of -1.5 toward
zero — while the mathematical floor of -1.5 is -2; the floor bucket is
absent from the grid. -/
theorem coordinate_grid_floor_counterexample :
    rNeg.lat = some (-(3/20 : ℚ)) ∧ rNeg.lng = some (-(3/20 : ℚ)) ∧
    ⌊(-(3/20 : ℚ)) * 10⌋ = -2 ∧
    dictLookup ((-1 : Int), (-1 : Int))
      (build_fast_indices dec0 [rNeg]).coordinate_grid =
        some [mkFastZipcode dec0 rNeg] ∧
    ¬ mkFastZipcode dec0 rNeg ∈
        (dictLookup (⌊(-(3/20 : ℚ)) * 10⌋, ⌊(-(3/20 : ℚ)) * 10⌋)
          (build_fast_indices dec0 [rNeg]).coordinate_grid).getD [] := by
  have hfloor : ⌊(-(3/20 : ℚ)) * 10⌋ = -2 := by
    rw [show (-(3/20 : ℚ)) * 10 = -(3/2) by norm_num, Rat.floor_def]
    with_unfolding_all decide
  refine ⟨rfl, rfl, hfloor, by with_unfolding_all decide, ?_⟩
  rw [hfloor]
  with_unfolding_all decide

/-- C1 (amended): every source row with both coordinates present has its
record inserted into the coordinate grid under the bucket pair obtained by
Python `int()` truncation toward zero of `lat * 10` and `lng * 10`; the
truncation agrees with the mathematical floor for nonnegative arguments. -/
theorem coordinate_grid_bucket_is_truncation (dec : Option String → Option (List String))
    (rows : List Row) {row : Row} (hrow : row ∈ rows) (la ln : ℚ)
    (hla : row.lat = some la) (hln : row.lng = some ln) :
    mkFastZipcode dec row ∈
      (dictLookup (pyInt (la * 10), pyInt (ln * 10))
        (build_fast_indices dec rows).coordinate_grid).getD [] ∧
    (∀ q : ℚ, 0 ≤ q → pyInt q = ⌊q⌋) :=
  ⟨mem_grid_of_gridSel dec hrow (gridSel_eq hla hln),
    fun _ hq => pyInt_eq_floor_of_nonneg hq⟩

/-- Witness for C1 (amended) at the concrete row `rA` (lat 30.3, lng -97.7):
its record lands in bucket (303, -977). -/
theorem coordinate_grid_bucket_is_truncation_witness :
    mkFastZipcode dec0 rA ∈
      (dictLookup (pyInt ((303/10 : ℚ) * 10), pyInt ((-(977/10) : ℚ) * 10))
        (build_fast_indices dec0 [rA]).coordinate_grid).getD [] ∧
    (∀ q : ℚ, 0 ≤ q → pyInt q = ⌊q⌋) :=
  coordinate_grid_bucket_is_truncation dec0 [rA] (by simp) (303/10) (-(977/10)) rfl rfl

/-- C2 (counterexample): the row with a NULL zipcode but city, state and
coordinates present is not skipped entirely — it is absent from the zipcode
index but inserted into both the city/state index and the coordinate
grid. -/
theorem empty_code_row_counterexample :
    rNoCode.zipcode = none ∧
    (build_fast_indices dec0 [rNoCode]).zipcode_index = [] ∧
    (build_fast_indices dec0 [rNoCode]).city_state_index =
      [(("Springfield", "IL"), [mkFastZipcode dec0 rNoCode])] ∧
    (build_fast_indices dec0 [rNoCode]).coordinate_grid =
      [((40, 50), [mkFastZipcode dec0 rNoCode])] ∧
    mkFastZipcode dec0 rNoCode ∈
      (dictLookup ("Springfield", "IL")
        (build_fast_indices dec0 [rNoCode]).city_state_index).getD [] := by
  refine ⟨rfl, by with_unfolding_all decide, by with_unfolding_all decide,
    by with_unfolding_all decide, by with_unfolding_all decide⟩

/-- C2 (amended): a source row whose raw zipcode is NULL or empty is
omitted from the zipcode index only (its record's code is `None` and no key
of the built zipcode index holds it), building continues, and the record is
still inserted into the city/state index and the coordinate grid whenever
those fields are present. -/
theorem empty_code_skips_zipcode_index_only (dec : Option String → Option (List String))
    (rows : List Row) {row : Row} (hrow : row ∈ rows)
    (hz : row.zipcode = none ∨ row.zipcode = some "") :
    (mkFastZipcode dec row).zipcode = none ∧
    (∀ k : String, dictLookup k (build_fast_indices dec rows).zipcode_index ≠
      some (mkFastZipcode dec row)) ∧
    ((optTruthy (mkFastZipcode dec row).major_city &&
        optTruthy (mkFastZipcode dec row).state) = true →
      mkFastZipcode dec row ∈
        (dictLookup ((mkFastZipcode dec row).major_city.getD "",
            (mkFastZipcode dec row).state.getD "")
          (build_fast_indices dec rows).city_state_index).getD []) ∧
    (∀ la ln : ℚ, row.lat = some la → row.lng = some ln →
      mkFastZipcode dec row ∈
        (dictLookup (pyInt (la * 10), pyInt (ln * 10))
          (build_fast_indices dec rows).coordinate_grid).getD []) := by
  have hnone : (mkFastZipcode dec row).zipcode = none := by
    rcases hz with h | h <;>
      simp [mkFastZipcode, h, show "".isEmpty = true from rfl]
  refine ⟨hnone, ?_, ?_, ?_⟩
  · intro k hk
    obtain ⟨row', _, hsel⟩ := lookup_zipcode_index_inv hk
    obtain ⟨_, ht, _⟩ := zipSel_inv hsel
    rw [hnone] at ht
    exact absurd ht (by simp [optTruthy])
  · intro hcs
    exact mem_city_state_of_citySel dec hrow (citySel_eq hcs)
  · intro la ln hla hln
    exact mem_grid_of_gridSel dec hrow (gridSel_eq hla hln)

/-- Witness for C2 (amended) at the concrete row `rNoCode`. -/
theorem empty_code_skips_zipcode_index_only_witness :
    (mkFastZipcode dec0 rNoCode).zipcode = none ∧
    (∀ k : String, dictLookup k (build_fast_indices dec0 [rNoCode]).zipcode_index ≠
      some (mkFastZipcode dec0 rNoCode)) ∧
    ((optTruthy (mkFastZipcode dec0 rNoCode).major_city &&
        optTruthy (mkFastZipcode dec0 rNoCode).state) = true →
      mkFastZipcode dec0 rNoCode ∈
        (dictLookup ((mkFastZipcode dec0 rNoCode).major_city.getD "",
            (mkFastZipcode dec0 rNoCode).state.getD "")
          (build_fast_indices dec0 [rNoCode]).city_state_index).getD []) ∧
    (∀ la ln : ℚ, rNoCode.lat = some la → rNoCode.lng = some ln →
      mkFastZipcode dec0 rNoCode ∈
        (dictLookup (pyInt (la * 10), pyInt (ln * 10))
          (build_fast_indices dec0 [rNoCode]).coordinate_grid).getD []) :=
  empty_code_skips_zipcode_index_only dec0 [rNoCode] (by simp) (Or.inl rfl)

/-- C3 (counterexample): the raw code `"123456"` is non-empty, yet the
builder stores it unshortened — the index key has length 6, not 5. -/
theorem long_code_counterexample :
    (build_fast_indices dec0 [rLong]).zipcode_index.map Prod.fst = ["123456"] ∧
    ¬("123456".length = 5) :=
  ⟨by decide, by decide⟩

/-- C3 (amended): every key of the built zipcode index equals the record's
own stored code and is the `zfill(5)` of some row's non-empty raw code; a
`zfill(5)` result is exactly 5 digit characters when the raw code has at
most 5 characters, all digits — longer or non-digit raw codes are stored
as-is apart from the padding. -/
theorem zipcode_index_key_is_zfill (dec : Option String → Option (List String))
    (rows : List Row) (k : String) (z : FastZipcode)
    (h : dictLookup k (build_fast_indices dec rows).zipcode_index = some z) :
    z.zipcode = some k ∧
    (∃ row ∈ rows, ∃ s : String, row.zipcode = some s ∧ s ≠ "" ∧ k = pyZfill s 5) ∧
    (∀ s : String, s ≠ "" → s.length ≤ 5 → s.data.all Char.isDigit = true →
      (pyZfill s 5).length = 5 ∧ (pyZfill s 5).data.all Char.isDigit = true) := by
  obtain ⟨row, hrow, hsel⟩ := lookup_zipcode_index_inv h
  obtain ⟨_, _, hk⟩ := zipSel_inv hsel
  exact ⟨hk, ⟨row, hrow, zipSel_raw hsel⟩,
    fun _ h1 h2 h3 => pyZfill_length_digits h1 h2 h3⟩

set_option maxRecDepth 4000 in
/-- Witness for C3 (amended): the build over `[rA]` stores key `"00001"`,
the zero-padded form of the raw code `"1"`. -/
theorem zipcode_index_key_is_zfill_witness :
    (mkFastZipcode dec0 rA).zipcode = some "00001" ∧
    (∃ row ∈ [rA], ∃ s : String, row.zipcode = some s ∧ s ≠ "" ∧
      "00001" = pyZfill s 5) ∧
    (∀ s : String, s ≠ "" → s.length ≤ 5 → s.data.all Char.isDigit = true →
      (pyZfill s 5).length = 5 ∧ (pyZfill s 5).data.all Char.isDigit = true) :=
  zipcode_index_key_is_zfill dec0 [rA] "00001" (mkFastZipcode dec0 rA)
    (by with_unfolding_all decide)

/-- C10: when a later row overwrites an earlier row's entry in the zipcode
index (same truthy code), the earlier row's record still belongs to the
built city/state index at its key (when city and state are present) and to
the built coordinate grid at its bucket (when coordinates are present). -/
theorem overwritten_rows_remain_in_other_indices
    (dec : Option String → Option (List String)) (rows : List Row) (i j : Nat)
    (hi : i < rows.length) (hj : j < rows.length) (hij : i < j)
    (hdup : (mkFastZipcode dec (rows.get ⟨i, hi⟩)).zipcode =
      (mkFastZipcode dec (rows.get ⟨j, hj⟩)).zipcode)
    (htr : optTruthy (mkFastZipcode dec (rows.get ⟨i, hi⟩)).zipcode = true) :
    ((optTruthy (mkFastZipcode dec (rows.get ⟨i, hi⟩)).major_city &&
        optTruthy (mkFastZipcode dec (rows.get ⟨i, hi⟩)).state) = true →
      mkFastZipcode dec (rows.get ⟨i, hi⟩) ∈
        (dictLookup ((mkFastZipcode dec (rows.get ⟨i, hi⟩)).major_city.getD "",
            (mkFastZipcode dec (rows.get ⟨i, hi⟩)).state.getD "")
          (build_fast_indices dec rows).city_state_index).getD []) ∧
    (∀ la ln : ℚ, (rows.get ⟨i, hi⟩).lat = some la →
      (rows.get ⟨i, hi⟩).lng = some ln →
      mkFastZipcode dec (rows.get ⟨i, hi⟩) ∈
        (dictLookup (pyInt (la * 10), pyInt (ln * 10))
          (build_fast_indices dec rows).coordinate_grid).getD []) := by
  have hrow : rows.get ⟨i, hi⟩ ∈ rows := List.get_mem rows i hi
  constructor
  · intro hcs
    exact mem_city_state_of_citySel dec hrow (citySel_eq hcs)
  · intro la ln hla hln
    exact mem_grid_of_gridSel dec hrow (gridSel_eq hla hln)

/-- Witness for C10: rows `[rA, rB]` share the padded code `"00001"`; the
earlier row `rA` keeps its place in the city/state index and the grid. -/
theorem overwritten_rows_remain_witness :
    ((optTruthy (mkFastZipcode dec0 ([rA, rB].get ⟨0, by decide⟩)).major_city &&
        optTruthy (mkFastZipcode dec0 ([rA, rB].get ⟨0, by decide⟩)).state) = true →
      mkFastZipcode dec0 ([rA, rB].get ⟨0, by decide⟩) ∈
        (dictLookup ((mkFastZipcode dec0 ([rA, rB].get ⟨0, by decide⟩)).major_city.getD "",
            (mkFastZipcode dec0 ([rA, rB].get ⟨0, by decide⟩)).state.getD "")
          (build_fast_indices dec0 [rA, rB]).city_state_index).getD []) ∧
    (∀ la ln : ℚ, ([rA, rB].get ⟨0, by decide⟩).lat = some la →
      ([rA, rB].get ⟨0, by decide⟩).lng = some ln →
      mkFastZipcode dec0 ([rA, rB].get ⟨0, by decide⟩) ∈
        (dictLookup (pyInt (la * 10), pyInt (ln * 10))
          (build_fast_indices dec0 [rA, rB]).coordinate_grid).getD []) :=
  overwritten_rows_remain_in_other_indices dec0 [rA, rB] 0 1 (by decide) (by decide)
    (by decide) (by with_unfolding_all decide) (by with_unfolding_all decide)

end ZipSearch
